import Mathlib

/-!
Shallow embedding of the stock-movement ledger of the inventory app:
the movement-registration handler (`handleSubmit` in the Movements page),
the history filter (`filterMovements` in the History page) and the
low-stock dashboard query (in `fetchDashboardData`), together with the
surrounding data model (`products`, `movements` rows).

Machine numbers are modelled as `Int` (the store's INTEGER columns);
fallible persistence writes are modelled by explicit failure-injection
flags; the two-step write of the handler is modelled step by step, so
partial application on failure is observable in the resulting state.
-/

namespace Saep

/-- Movement kind: `entrada` (inbound) or `saida` (outbound), the two
values the form's type select offers and the store's CHECK constraint
allows. -/
inductive MovementType where
  | entrada
  | saida
deriving DecidableEq

/-- A row of `products` as read by the Movements page
(`select("id, name, quantity")`). -/
structure Product where
  id : String
  name : String
  quantity : Int
deriving DecidableEq

/-- A row of `movements` as inserted by the handler: product reference,
kind, quantity, responsible identity and denormalized name, optional
note. -/
structure MovementRecord where
  product_id : String
  type : MovementType
  quantity : Int
  responsible_id : String
  responsible_name : String
  notes : Option String
deriving DecidableEq

/-- The form state of the Movements page (`formData`). -/
structure FormData where
  product_id : String
  type : MovementType
  quantity : Int
  notes : String
deriving DecidableEq

/-- The authentication context: `user` (its id) from `useAuth`, and the
loaded `profile` (its `full_name`); either may be absent. -/
structure Auth where
  user : Option String
  profile : Option String
deriving DecidableEq

/-- The persistent state the handler touches: the `products` table and
the append-only `movements` table. -/
structure AppState where
  products : List Product
  movements : List MovementRecord
deriving DecidableEq

/-- Observable outcome of one submission attempt, one constructor per
distinct user-visible feedback path of the page: the native
constraint-validation block of the quantity input (`min="1"`,
`required`), and the four toast paths of `handleSubmit`. -/
inductive Outcome where
  | validationBlocked
  | notAuthenticated
  | productNotFound
  | insufficientStock
  | persistenceError
  | success
deriving DecidableEq

/-- The store's UPDATE of `products` `.eq("id", pid)`: every row whose id
matches gets the new quantity. -/
def updateProductQuantity (pid : String) (nq : Int) (ps : List Product) : List Product :=
  ps.map fun p => if p.id == pid then { p with quantity := nq } else p

/-- The handler's `notes: formData.notes || null`: an empty note is
stored as NULL. -/
def mkNote (notes : String) : Option String :=
  if notes == "" then none else some notes

/-- The movement-registration handler (`handleSubmit` of the Movements
page), with the product snapshot it reads made explicit: the handler
looks the product up in the component's `products` state (`snapshot`,
loaded by an earlier `fetchProducts`), computes the new balance from
that snapshot, then performs two separate writes against the store
(`st`): update the product's quantity, then insert the movement row.
`updateFails` / `insertFails` inject a persistence failure at the
corresponding write; a failed write leaves the store as it was at that
point and control reaches the catch block (a single generic toast). -/
def handleSubmitWith (snapshot : List Product) (auth : Auth) (st : AppState)
    (form : FormData) (updateFails insertFails : Bool) : Outcome × AppState :=
  match auth.user, auth.profile with
  | some uid, some fullName =>
    match snapshot.find? (fun p => p.id == form.product_id) with
    | none => (.productNotFound, st)
    | some selectedProduct =>
      if form.type = MovementType.saida ∧ form.quantity > selectedProduct.quantity then
        (.insufficientStock, st)
      else
        let newQuantity :=
          if form.type = MovementType.entrada then selectedProduct.quantity + form.quantity
          else selectedProduct.quantity - form.quantity
        if updateFails then
          (.persistenceError, st)
        else
          let st1 : AppState :=
            { st with products := updateProductQuantity form.product_id newQuantity st.products }
          if insertFails then
            (.persistenceError, st1)
          else
            (.success,
              { st1 with movements := st1.movements ++
                  [{ product_id := form.product_id, type := form.type,
                     quantity := form.quantity, responsible_id := uid,
                     responsible_name := fullName, notes := mkNote form.notes }] })
  | _, _ => (.notAuthenticated, st)

/-- The handler in the ordinary sequential flow, where the component's
`products` snapshot is fresh (equal to the store's current rows). -/
def handleSubmit (auth : Auth) (st : AppState) (form : FormData)
    (updateFails insertFails : Bool) : Outcome × AppState :=
  handleSubmitWith st.products auth st form updateFails insertFails

/-- One full submission of the movement form: the quantity input is a
native number input with `required` and `min="1"`, so HTML constraint
validation blocks the submit event (no handler run, no mutation) when
the quantity is below 1; otherwise `handleSubmit` runs. -/
def submitForm (auth : Auth) (st : AppState) (form : FormData)
    (updateFails insertFails : Bool) : Outcome × AppState :=
  if form.quantity < 1 then (.validationBlocked, st)
  else handleSubmit auth st form updateFails insertFails

/-- Current balance of the product `pid` in a product list: the
`quantity` field of the first row with that id (the read every page
performs), 0 if absent. -/
def quantityOfList (pid : String) (ps : List Product) : Int :=
  match ps.find? (fun p => p.id == pid) with
  | some p => p.quantity
  | none => 0

/-- Current balance of the product `pid` in the store. -/
def quantityOf (pid : String) (st : AppState) : Int :=
  quantityOfList pid st.products

/-- Signed effect of one movement request on its product's balance:
`+quantity` for entrada, `-quantity` for saida (the handler's
`newQuantity` computation viewed as a delta). -/
def movementDelta (form : FormData) : Int :=
  if form.type = MovementType.entrada then form.quantity else -form.quantity

/-- Sequential execution of a list of movement submissions, each with a
fresh snapshot and no injected failure (the ordinary flow: `fetchProducts`
refreshes the snapshot after each successful submission). -/
def runMovements (auth : Auth) (st : AppState) : List FormData → AppState
  | [] => st
  | form :: forms => runMovements auth (handleSubmit auth st form false false).2 forms

/-- Decides that every submission in the sequence succeeds when run
sequentially from `st`. -/
def allOk (auth : Auth) (st : AppState) : List FormData → Bool
  | [] => true
  | form :: forms =>
    match handleSubmit auth st form false false with
    | (Outcome.success, st1) => allOk auth st1 forms
    | _ => false

/-- Sum of the quantities of the inbound requests in a sequence. -/
def inboundSum (forms : List FormData) : Int :=
  ((forms.filter (fun f => f.type == MovementType.entrada)).map (fun f => f.quantity)).sum

/-- Sum of the quantities of the outbound requests in a sequence. -/
def outboundSum (forms : List FormData) : Int :=
  ((forms.filter (fun f => f.type == MovementType.saida)).map (fun f => f.quantity)).sum

/-- All product balances in the store are non-negative. -/
def nonneg (st : AppState) : Prop :=
  ∀ p ∈ st.products, 0 ≤ p.quantity

/-- The user-visible feedback of each outcome: the toast message each
failure path of `handleSubmit` raises (`toast.error` calls), `none` for
success (whose toast is the success message) and for the form-level
block, which never reaches the handler. -/
def toastMessage : Outcome → Option String
  | Outcome.notAuthenticated => some "Usuário não autenticado"
  | Outcome.productNotFound => some "Produto não encontrado"
  | Outcome.insufficientStock => some "Quantidade insuficiente em estoque"
  | Outcome.persistenceError => some "Erro ao registrar movimentação"
  | _ => none

/-! ### History page (`filterMovements`) -/

/-- The product columns joined onto each movement row for display
(`products(name, category)`). -/
structure JoinedProduct where
  name : String
  category : String
deriving DecidableEq

/-- A row of the fetched movement history, joined with its product, as
held in the History page's `movements` state (ordered descending by
`created_at`, modelled as a numeric timestamp). -/
structure HMovement where
  id : String
  type : String
  quantity : Int
  responsible_name : String
  notes : Option String
  created_at : Int
  products : JoinedProduct
deriving DecidableEq

/-- Decides whether `needle` is a prefix of `hay` (character lists). -/
def charsStart : List Char → List Char → Bool
  | [], _ => true
  | _ :: _, [] => false
  | a :: as, b :: bs => a == b && charsStart as bs

/-- Decides whether `needle` occurs contiguously inside `hay`
(JavaScript's `String.prototype.includes`). -/
def charsIncl (needle : List Char) : List Char → Bool
  | [] => charsStart needle []
  | c :: cs => charsStart needle (c :: cs) || charsIncl needle cs

/-- A string lower-cased character by character (the simple case mapping
of `toLowerCase`), as a character list. -/
def lowerStr (s : String) : List Char :=
  s.data.map Char.toLower

/-- Case-insensitive substring test, as the page computes it:
`hay.toLowerCase().includes(needle.toLowerCase())`. -/
def ciIncl (hay needle : String) : Bool :=
  charsIncl (lowerStr needle) (lowerStr hay)

/-- The History page's `filterMovements`: when a search term is entered
(non-empty), keep movements whose product name or responsible name
contains it case-insensitively; when the type filter is not "all", keep
movements of exactly that type. -/
def filterMovements (movements : List HMovement) (searchTerm typeFilter : String) :
    List HMovement :=
  let f1 :=
    if searchTerm ≠ "" then
      movements.filter (fun m =>
        ciIncl m.products.name searchTerm || ciIncl m.responsible_name searchTerm)
    else movements
  if typeFilter ≠ "all" then f1.filter (fun m => m.type == typeFilter) else f1

/-- The filter criterion as the spec words it: the product name or the
responsible display name contains the search term case-insensitively
(when a term is given), and the type equals the type filter exactly
(when one is selected). -/
def matchesFilter (searchTerm typeFilter : String) (m : HMovement) : Bool :=
  (searchTerm == "" || ciIncl m.products.name searchTerm
      || ciIncl m.responsible_name searchTerm)
    && (typeFilter == "all" || m.type == typeFilter)

/-! ### Dashboard (`fetchDashboardData` low-stock query) -/

/-- A row of `products` as read by the dashboard (the fields its
low-stock computation uses). -/
structure DProduct where
  id : String
  name : String
  quantity : Int
  min_stock : Int
deriving DecidableEq

/-- Ascending-by-quantity ordering, the dashboard's sort comparator
`(a, b) => a.quantity - b.quantity`. -/
def byQuantity (a b : DProduct) : Prop :=
  a.quantity ≤ b.quantity

instance : DecidableRel byQuantity :=
  fun a b => Int.decLe a.quantity b.quantity

instance : IsTotal DProduct byQuantity :=
  ⟨fun a b => le_total a.quantity b.quantity⟩

instance : IsTrans DProduct byQuantity :=
  ⟨fun _ _ _ h1 h2 => le_trans h1 h2⟩

/-- The dashboard's low-stock computation over the fetched `products`
rows: filter `quantity <= min_stock`, sort ascending by quantity
(stable, per the ECMAScript sort contract — modelled by the stable
insertion sort), keep the first 5. It reads only the products'
maintained `quantity` fields, never the movement log. -/
def lowStock (allProducts : List DProduct) : List DProduct :=
  ((allProducts.filter (fun p => p.quantity ≤ p.min_stock)).insertionSort byQuantity).take 5

/-! ### Concrete fixtures used by counterexamples and witnesses -/

/-- An authenticated context (user id and loaded profile name). -/
def authOk : Auth := { user := some "u1", profile := some "Ana" }

/-- A context with no authenticated user. -/
def authNone : Auth := { user := none, profile := none }

/-- A registered product with balance 10. -/
def prodM : Product := { id := "p1", name := "Mouse", quantity := 10 }

/-- A store holding one product with balance 10 and an empty log. -/
def stOne : AppState := { products := [prodM], movements := [] }

/-- An inbound request for 5 units of the product. -/
def inFive : FormData :=
  { product_id := "p1", type := MovementType.entrada, quantity := 5, notes := "" }

/-- A store holding one product with balance 2 and an empty log. -/
def stTwo : AppState :=
  { products := [{ id := "p1", name := "Mouse", quantity := 2 }], movements := [] }

/-- An outbound request for 1 unit of the product. -/
def outOne : FormData :=
  { product_id := "p1", type := MovementType.saida, quantity := 1, notes := "" }

/-- First of two concurrent submissions: both clients loaded the same
`products` snapshot (`stTwo.products`, balance 2) before either wrote. -/
def staleFirst : Outcome × AppState :=
  handleSubmitWith stTwo.products authOk stTwo outOne false false

/-- Second concurrent submission, still working from the stale snapshot
taken before the first one wrote. -/
def staleSecond : Outcome × AppState :=
  handleSubmitWith stTwo.products authOk staleFirst.2 outOne false false

/-- A fetched outbound history row (timestamp 5). -/
def mv1 : HMovement :=
  { id := "m1", type := "saida", quantity := 2, responsible_name := "Ana",
    notes := none, created_at := 5, products := { name := "Mouse", category := "per" } }

/-- A fetched inbound history row (timestamp 3). -/
def mv2 : HMovement :=
  { id := "m2", type := "entrada", quantity := 1, responsible_name := "Bia",
    notes := none, created_at := 3, products := { name := "Cabo", category := "acc" } }

/-- A dashboard product below threshold (quantity 3 of 5). -/
def dpA : DProduct := { id := "a", name := "A", quantity := 3, min_stock := 5 }

/-- A dashboard product below threshold (quantity 1 of 5). -/
def dpB : DProduct := { id := "b", name := "B", quantity := 1, min_stock := 5 }

/-- A dashboard product above threshold (quantity 9 of 5). -/
def dpC : DProduct := { id := "c", name := "C", quantity := 9, min_stock := 5 }

/-- An outbound request for the product's entire balance of 10. -/
def outTen : FormData :=
  { product_id := "p1", type := MovementType.saida, quantity := 10, notes := "" }

/-! ### Lemmas about the handler -/

theorem find?_updateProductQuantity (pid : String) (nq : Int) (ps : List Product) :
    (updateProductQuantity pid nq ps).find? (fun p => p.id == pid)
      = (ps.find? (fun p => p.id == pid)).map (fun p => { p with quantity := nq }) := by
  induction ps with
  | nil => rfl
  | cons p ps ih =>
    simp only [updateProductQuantity, List.map_cons] at ih ⊢
    by_cases h : (p.id == pid) = true
    · rw [if_pos h]
      rw [List.find?_cons_of_pos (p := fun q : Product => q.id == pid)
            (a := { p with quantity := nq }) _ h,
          List.find?_cons_of_pos (p := fun q : Product => q.id == pid) _ h]
      rfl
    · rw [if_neg h]
      rw [List.find?_cons_of_neg (p := fun q : Product => q.id == pid) _ h,
          List.find?_cons_of_neg (p := fun q : Product => q.id == pid) _ h]
      exact ih

theorem quantityOfList_update (pid : String) (nq : Int) (ps : List Product)
    (sel : Product) (h : ps.find? (fun p => p.id == pid) = some sel) :
    quantityOfList pid (updateProductQuantity pid nq ps) = nq := by
  unfold quantityOfList
  rw [find?_updateProductQuantity, h]
  rfl

theorem handleSubmit_eq_success (auth : Auth) (st : AppState) (form : FormData)
    (uid nm : String) (sel : Product)
    (hu : auth.user = some uid) (hp : auth.profile = some nm)
    (hf : st.products.find? (fun p => p.id == form.product_id) = some sel)
    (hok : ¬(form.type = MovementType.saida ∧ form.quantity > sel.quantity)) :
    handleSubmit auth st form false false =
      (Outcome.success,
        { products := updateProductQuantity form.product_id
            (if form.type = MovementType.entrada then sel.quantity + form.quantity
             else sel.quantity - form.quantity) st.products,
          movements := st.movements ++
            [{ product_id := form.product_id, type := form.type, quantity := form.quantity,
               responsible_id := uid, responsible_name := nm,
               notes := mkNote form.notes }] }) := by
  unfold handleSubmit handleSubmitWith
  rw [hu, hp, hf]
  simp [hok]

theorem handleSubmit_success_inv (auth : Auth) (st : AppState) (form : FormData)
    (u i : Bool) (hs : (handleSubmit auth st form u i).1 = Outcome.success) :
    ∃ uid nm sel, auth.user = some uid ∧ auth.profile = some nm ∧
      st.products.find? (fun p => p.id == form.product_id) = some sel ∧
      ¬(form.type = MovementType.saida ∧ form.quantity > sel.quantity) ∧
      u = false ∧ i = false := by
  unfold handleSubmit handleSubmitWith at hs
  cases hu : auth.user with
  | none => rw [hu] at hs; simp at hs
  | some uid =>
    cases hp : auth.profile with
    | none => rw [hu, hp] at hs; simp at hs
    | some nm =>
      rw [hu, hp] at hs
      cases hf : st.products.find? (fun p => p.id == form.product_id) with
      | none => rw [hf] at hs; simp at hs
      | some sel =>
        rw [hf] at hs
        by_cases hok : form.type = MovementType.saida ∧ form.quantity > sel.quantity
        · simp [hok] at hs
        · cases u with
          | true => simp [hok] at hs
          | false =>
            cases i with
            | true => simp [hok] at hs
            | false => exact ⟨uid, nm, sel, rfl, rfl, rfl, hok, rfl, rfl⟩

theorem quantityOfList_eq (pid : String) (ps : List Product) (sel : Product)
    (h : ps.find? (fun p => p.id == pid) = some sel) :
    quantityOfList pid ps = sel.quantity := by
  unfold quantityOfList
  rw [h]

theorem quantityOf_success (auth : Auth) (st : AppState) (form : FormData)
    (hs : (handleSubmit auth st form false false).1 = Outcome.success) :
    quantityOf form.product_id (handleSubmit auth st form false false).2
      = quantityOf form.product_id st + movementDelta form := by
  obtain ⟨uid, nm, sel, hu, hp, hf, hok, -, -⟩ :=
    handleSubmit_success_inv auth st form false false hs
  rw [handleSubmit_eq_success auth st form uid nm sel hu hp hf hok]
  dsimp only
  unfold quantityOf
  dsimp only
  rw [quantityOfList_update _ _ _ _ hf, quantityOfList_eq _ _ _ hf]
  unfold movementDelta
  by_cases ht : form.type = MovementType.entrada
  · rw [if_pos ht, if_pos ht]
  · rw [if_neg ht, if_neg ht]
    omega

theorem movements_success (auth : Auth) (st : AppState) (form : FormData)
    (uid nm : String) (sel : Product)
    (hu : auth.user = some uid) (hp : auth.profile = some nm)
    (hf : st.products.find? (fun p => p.id == form.product_id) = some sel)
    (hok : ¬(form.type = MovementType.saida ∧ form.quantity > sel.quantity)) :
    (handleSubmit auth st form false false).2.movements = st.movements ++
      [{ product_id := form.product_id, type := form.type, quantity := form.quantity,
         responsible_id := uid, responsible_name := nm, notes := mkNote form.notes }] := by
  rw [handleSubmit_eq_success auth st form uid nm sel hu hp hf hok]

theorem inboundSum_cons (f : FormData) (fs : List FormData) :
    inboundSum (f :: fs)
      = (if f.type = MovementType.entrada then f.quantity else 0) + inboundSum fs := by
  unfold inboundSum
  rw [List.filter_cons]
  by_cases h : f.type = MovementType.entrada
  · simp [h]
  · simp [h]

theorem outboundSum_cons (f : FormData) (fs : List FormData) :
    outboundSum (f :: fs)
      = (if f.type = MovementType.saida then f.quantity else 0) + outboundSum fs := by
  unfold outboundSum
  rw [List.filter_cons]
  by_cases h : f.type = MovementType.saida
  · simp [h]
  · simp [h]

theorem runMovements_balance (auth : Auth) (pid : String) :
    ∀ (forms : List FormData) (st : AppState),
      (∀ f ∈ forms, f.product_id = pid) → allOk auth st forms = true →
      quantityOf pid (runMovements auth st forms)
        = quantityOf pid st + inboundSum forms - outboundSum forms := by
  intro forms
  induction forms with
  | nil =>
    intro st _ _
    simp [runMovements, inboundSum, outboundSum]
  | cons f fs ih =>
    intro st hpid hok
    unfold allOk at hok
    rcases hr : handleSubmit auth st f false false with ⟨o, st1⟩
    rw [hr] at hok
    cases o with
    | success =>
      dsimp only at hok
      have hq : quantityOf pid st1 = quantityOf pid st + movementDelta f := by
        have h1 := quantityOf_success auth st f (by rw [hr])
        rw [hr] at h1
        dsimp only at h1
        rw [hpid f (List.mem_cons_self f fs)] at h1
        exact h1
      have h2 := ih st1 (fun g hg => hpid g (List.mem_cons_of_mem f hg)) hok
      unfold runMovements
      rw [hr]
      dsimp only
      rw [h2, hq, inboundSum_cons, outboundSum_cons]
      unfold movementDelta
      cases ht : f.type with
      | entrada => simp; omega
      | saida => simp; omega
    | validationBlocked => simp at hok
    | notAuthenticated => simp at hok
    | productNotFound => simp at hok
    | insufficientStock => simp at hok
    | persistenceError => simp at hok

theorem submitForm_success_nonneg (auth : Auth) (st : AppState) (form : FormData)
    (u i : Bool) (hnn : nonneg st)
    (hs : (submitForm auth st form u i).1 = Outcome.success) :
    nonneg (submitForm auth st form u i).2 := by
  unfold submitForm at hs ⊢
  by_cases hq : form.quantity < 1
  · rw [if_pos hq] at hs
    simp at hs
  · rw [if_neg hq] at hs ⊢
    obtain ⟨uid, nm, sel, hu, hp, hf, hok, hu0, hi0⟩ :=
      handleSubmit_success_inv auth st form u i hs
    subst hu0
    subst hi0
    rw [handleSubmit_eq_success auth st form uid nm sel hu hp hf hok]
    intro p' hp'
    dsimp only at hp'
    unfold updateProductQuantity at hp'
    obtain ⟨p, hpmem, hpeq⟩ := List.mem_map.mp hp'
    have hsel : 0 ≤ sel.quantity := hnn sel (List.mem_of_find?_eq_some hf)
    by_cases hid : (p.id == form.product_id) = true
    · rw [if_pos hid] at hpeq
      subst hpeq
      by_cases ht : form.type = MovementType.entrada
      · rw [if_pos ht]
        dsimp only
        omega
      · rw [if_neg ht]
        dsimp only
        have hty : form.type = MovementType.saida := by
          cases htc : form.type
          · exact absurd htc ht
          · rfl
        have : ¬ form.quantity > sel.quantity := fun hgt => hok ⟨hty, hgt⟩
        omega
    · rw [if_neg hid] at hpeq
      subst hpeq
      exact hnn p hpmem

theorem handleSubmit_ne_validationBlocked (auth : Auth) (st : AppState) (form : FormData)
    (u i : Bool) : (handleSubmit auth st form u i).1 ≠ Outcome.validationBlocked := by
  unfold handleSubmit handleSubmitWith
  cases hu : auth.user with
  | none => simp
  | some uid =>
    cases hp : auth.profile with
    | none => simp
    | some nm =>
      cases hf : st.products.find? (fun p => p.id == form.product_id) with
      | none => simp
      | some sel =>
        cases u <;> cases i <;>
          by_cases hok : form.type = MovementType.saida ∧ form.quantity > sel.quantity <;>
          simp [hok]

theorem filterMovements_eq (ms : List HMovement) (t f : String) :
    filterMovements ms t f = ms.filter (matchesFilter t f) := by
  unfold filterMovements matchesFilter
  by_cases ht : t = "" <;> by_cases hf : f = "all" <;>
    simp [ht, hf, List.filter_filter]
  · refine List.filter_congr fun m _ => ?_
    rw [beq_eq_false_iff_ne.mpr hf, Bool.false_or]
  · refine List.filter_congr fun m _ => ?_
    rw [beq_eq_false_iff_ne.mpr ht, Bool.false_or]
  · refine List.filter_congr fun m _ => ?_
    rw [beq_eq_false_iff_ne.mpr ht, beq_eq_false_iff_ne.mpr hf,
      Bool.false_or, Bool.false_or, Bool.and_comm]

/-! ### Claims -/

/-- C1: the spec demands that the balance update and the movement
insertion be applied as a single indivisible unit. The code violates
this: `handleSubmit` issues two separate writes with no transaction and
no rollback, so a failure injected at the movement insert, after the
balance update succeeded, leaves the balance changed (15) with no
movement recorded — a state different from the pre-operation state. -/
theorem insert_failure_leaves_inconsistent_state :
    handleSubmit authOk stOne inFive false true
      = (Outcome.persistenceError,
         { products := [{ id := "p1", name := "Mouse", quantity := 15 }],
           movements := [] })
    ∧ ({ products := [{ id := "p1", name := "Mouse", quantity := 15 }],
         movements := [] } : AppState) ≠ stOne := by
  decide

/-- C2: an outbound request whose quantity exceeds the product's current
quantity fails with the insufficient-stock outcome and performs no
mutation, and any successful full submission preserves non-negativity of
all product balances. -/
theorem outbound_insufficient_rejected_and_nonneg :
    (∀ (auth : Auth) (st : AppState) (form : FormData) (uid nm : String)
        (sel : Product) (u i : Bool),
        auth.user = some uid → auth.profile = some nm →
        st.products.find? (fun p => p.id == form.product_id) = some sel →
        form.type = MovementType.saida → form.quantity > sel.quantity →
        handleSubmit auth st form u i = (Outcome.insufficientStock, st)) ∧
    (∀ (auth : Auth) (st : AppState) (form : FormData) (u i : Bool),
        nonneg st → (submitForm auth st form u i).1 = Outcome.success →
        nonneg (submitForm auth st form u i).2) := by
  constructor
  · intro auth st form uid nm sel u i hu hp hf hty hgt
    unfold handleSubmit handleSubmitWith
    rw [hu, hp, hf]
    simp [hty, hgt]
  · exact submitForm_success_nonneg

/-- C2 witness: with balance 10, an outbound request for 11 is rejected
with no mutation, and a successful inbound submission keeps all balances
non-negative. -/
theorem outbound_insufficient_rejected_and_nonneg_witness :
    handleSubmit authOk stOne
        { product_id := "p1", type := MovementType.saida, quantity := 11, notes := "" }
        false false
      = (Outcome.insufficientStock, stOne)
    ∧ nonneg (submitForm authOk stOne inFive false false).2 :=
  ⟨outbound_insufficient_rejected_and_nonneg.1 authOk stOne _ "u1" "Ana" prodM
      false false rfl rfl (by decide) rfl (by decide),
   outbound_insufficient_rejected_and_nonneg.2 authOk stOne inFive false false
      (by unfold nonneg; decide) (by decide)⟩

/-- C3: the spec demands that concurrent recordMovement calls against the
same product serialize their read-modify-write so that N concurrent
outbound movements of 1 against balance N end at balance 0 with N
records. The code violates this: each client computes the new balance
from its own stale snapshot and writes it absolutely, so two concurrent
outbound movements of 1 against balance 2 both succeed, write balance 1
twice (one decrement is lost), and leave balance 1, not 0, with 2
movement records. -/
theorem concurrent_outbound_lost_update :
    staleFirst.1 = Outcome.success
    ∧ staleSecond.1 = Outcome.success
    ∧ quantityOf "p1" staleSecond.2 = 1
    ∧ staleSecond.2.movements.length = 2
    ∧ quantityOf "p1" staleSecond.2 ≠ 0 := by
  decide

/-- C4: for every sequence of successful recordMovement calls on a single
product starting at balance B0, the final quantity equals B0 plus the
sum of inbound quantities minus the sum of outbound quantities. -/
theorem ledger_balance_invariant (auth : Auth) (pid : String) :
    ∀ (forms : List FormData) (st : AppState),
      (∀ f ∈ forms, f.product_id = pid) → allOk auth st forms = true →
      quantityOf pid (runMovements auth st forms)
        = quantityOf pid st + inboundSum forms - outboundSum forms :=
  runMovements_balance auth pid

/-- C4 witness: from balance 10, inbound 5 then outbound 3 (both
succeed) end at 10 + 5 − 3. -/
theorem ledger_balance_invariant_witness :
    quantityOf "p1" (runMovements authOk stOne
        [inFive, { product_id := "p1", type := MovementType.saida,
                   quantity := 3, notes := "" }])
      = quantityOf "p1" stOne
        + inboundSum [inFive, { product_id := "p1", type := MovementType.saida,
                                quantity := 3, notes := "" }]
        - outboundSum [inFive, { product_id := "p1", type := MovementType.saida,
                                 quantity := 3, notes := "" }] :=
  ledger_balance_invariant authOk "p1" _ stOne (by decide) (by decide)

/-- C5: every successful recordMovement updates the product's quantity to
current balance plus quantity (inbound) or minus quantity (outbound),
and appends exactly one movement record carrying the supplied product
reference, kind, quantity, responsible identity and name, and optional
note. -/
theorem success_effect (auth : Auth) (st : AppState) (form : FormData) (st' : AppState)
    (hs : handleSubmit auth st form false false = (Outcome.success, st')) :
    ∃ uid nm, auth.user = some uid ∧ auth.profile = some nm ∧
      st'.movements = st.movements ++
        [{ product_id := form.product_id, type := form.type, quantity := form.quantity,
           responsible_id := uid, responsible_name := nm, notes := mkNote form.notes }] ∧
      quantityOf form.product_id st'
        = (if form.type = MovementType.entrada
           then quantityOf form.product_id st + form.quantity
           else quantityOf form.product_id st - form.quantity) := by
  have h1 : (handleSubmit auth st form false false).1 = Outcome.success := by rw [hs]
  obtain ⟨uid, nm, sel, hu, hp, hf, hok, -, -⟩ :=
    handleSubmit_success_inv auth st form false false h1
  have heq := handleSubmit_eq_success auth st form uid nm sel hu hp hf hok
  rw [hs] at heq
  have h2 := congrArg Prod.snd heq
  dsimp only at h2
  refine ⟨uid, nm, hu, hp, ?_, ?_⟩
  · rw [h2]
  · rw [h2]
    unfold quantityOf
    dsimp only
    rw [quantityOfList_update _ _ _ _ hf, quantityOfList_eq _ _ _ hf]

/-- C5 witness: inbound 5 from balance 10 ends at 15 and appends exactly
the supplied record. -/
theorem success_effect_witness :
    ∃ uid nm, authOk.user = some uid ∧ authOk.profile = some nm ∧
      (handleSubmit authOk stOne inFive false false).2.movements
        = stOne.movements ++
          [{ product_id := inFive.product_id, type := inFive.type,
             quantity := inFive.quantity, responsible_id := uid,
             responsible_name := nm, notes := mkNote inFive.notes }] ∧
      quantityOf inFive.product_id (handleSubmit authOk stOne inFive false false).2
        = (if inFive.type = MovementType.entrada
           then quantityOf inFive.product_id stOne + inFive.quantity
           else quantityOf inFive.product_id stOne - inFive.quantity) :=
  success_effect authOk stOne inFive
    (handleSubmit authOk stOne inFive false false).2 (by decide)

/-- C6: a submission whose quantity is not a positive integer is blocked
by the form's constraint validation (the quantity input's `min="1"` and
`required`): the operation fails at validation and performs no
mutation. -/
theorem nonpositive_quantity_blocked (auth : Auth) (st : AppState) (form : FormData)
    (u i : Bool) (hq : form.quantity ≤ 0) :
    submitForm auth st form u i = (Outcome.validationBlocked, st) := by
  unfold submitForm
  rw [if_pos (by omega)]

/-- C6 witness: a zero-quantity request is blocked with no mutation. -/
theorem nonpositive_quantity_blocked_witness :
    submitForm authOk stOne
        { product_id := "p1", type := MovementType.entrada, quantity := 0, notes := "" }
        false false
      = (Outcome.validationBlocked, stOne) :=
  nonpositive_quantity_blocked authOk stOne _ false false (by decide)

/-- C7: the history filter returns exactly the movements matching the
search term (case-insensitive substring of product name or responsible
name, when given) and the type filter (exact match, when selected), as a
subsequence of the input, preserving a descending-by-creation-time
ordering; it is a pure function of its input. -/
theorem history_filter_spec (ms : List HMovement) (t f : String) :
    filterMovements ms t f = ms.filter (matchesFilter t f)
    ∧ (filterMovements ms t f).Sublist ms
    ∧ (List.Pairwise (fun a b => b.created_at ≤ a.created_at) ms →
        List.Pairwise (fun a b => b.created_at ≤ a.created_at) (filterMovements ms t f)) := by
  refine ⟨filterMovements_eq ms t f, ?_, ?_⟩
  · rw [filterMovements_eq]
    exact List.filter_sublist ms
  · intro h
    exact List.Pairwise.sublist
      (by rw [filterMovements_eq]; exact List.filter_sublist ms) h

/-- C7 witness: on a two-row descending history with the type filter set
to outbound, the filter agrees with the spec criterion, is a subsequence,
and stays descending by creation time. -/
theorem history_filter_spec_witness :
    filterMovements [mv1, mv2] "" "saida"
        = [mv1, mv2].filter (matchesFilter "" "saida")
    ∧ (filterMovements [mv1, mv2] "" "saida").Sublist [mv1, mv2]
    ∧ List.Pairwise (fun a b => b.created_at ≤ a.created_at)
        (filterMovements [mv1, mv2] "" "saida") := by
  have h := history_filter_spec [mv1, mv2] "" "saida"
  exact ⟨h.1, h.2.1, h.2.2 (by decide)⟩

/-- C8: the low-stock query returns only products at or below their
minimum stock, taken from the fetched rows, sorted ascending by
quantity, truncated to at most 5; and when at most 5 products are low it
returns exactly those products. It is computed from the maintained
`quantity` fields only (the movement log is not an input). -/
theorem low_stock_query_spec (ps : List DProduct) :
    (∀ p ∈ lowStock ps, p ∈ ps ∧ p.quantity ≤ p.min_stock)
    ∧ List.Sorted byQuantity (lowStock ps)
    ∧ (lowStock ps).length ≤ 5
    ∧ ((ps.filter (fun p => p.quantity ≤ p.min_stock)).length ≤ 5 →
        (lowStock ps).Perm (ps.filter (fun p => p.quantity ≤ p.min_stock))) := by
  refine ⟨?_, ?_, ?_, ?_⟩
  · intro p hp
    unfold lowStock at hp
    have hp1 := List.mem_of_mem_take hp
    have hp2 := (List.perm_insertionSort byQuantity _).mem_iff.mp hp1
    have hp3 := List.mem_filter.mp hp2
    exact ⟨hp3.1, of_decide_eq_true hp3.2⟩
  · exact List.Pairwise.sublist (List.take_sublist 5 _)
      (List.sorted_insertionSort byQuantity _)
  · exact List.length_take_le 5 _
  · intro h
    unfold lowStock
    rw [List.take_of_length_le
      (by rw [(List.perm_insertionSort byQuantity _).length_eq]; exact h)]
    exact List.perm_insertionSort byQuantity _

/-- C8 witness: on three fetched products of which two are low, the
query returns exactly those two, sorted ascending, within the bound. -/
theorem low_stock_query_spec_witness :
    (∀ p ∈ lowStock [dpA, dpB, dpC], p ∈ [dpA, dpB, dpC] ∧ p.quantity ≤ p.min_stock)
    ∧ List.Sorted byQuantity (lowStock [dpA, dpB, dpC])
    ∧ (lowStock [dpA, dpB, dpC]).length ≤ 5
    ∧ (lowStock [dpA, dpB, dpC]).Perm
        ([dpA, dpB, dpC].filter (fun p => p.quantity ≤ p.min_stock)) := by
  have h := low_stock_query_spec [dpA, dpB, dpC]
  exact ⟨h.1, h.2.1, h.2.2.1, h.2.2.2 (by decide)⟩

/-- C9: every failure of the handler surfaces a toast, and the
toast-message map is injective on failure outcomes: no two distinct
error kinds are merged into one message, and none is silently
swallowed. -/
theorem error_kinds_distinguishable :
    (∀ (auth : Auth) (st : AppState) (form : FormData) (u i : Bool),
        (handleSubmit auth st form u i).1 ≠ Outcome.success →
        (toastMessage (handleSubmit auth st form u i).1).isSome = true)
    ∧ (∀ o₁ o₂ : Outcome, (toastMessage o₁).isSome = true →
        toastMessage o₁ = toastMessage o₂ → o₁ = o₂) := by
  constructor
  · intro auth st form u i hne
    cases ho : (handleSubmit auth st form u i).1 with
    | validationBlocked =>
      exact absurd ho (handleSubmit_ne_validationBlocked auth st form u i)
    | notAuthenticated => rfl
    | productNotFound => rfl
    | insufficientStock => rfl
    | persistenceError => rfl
    | success => exact absurd ho hne
  · intro o₁ o₂
    cases o₁ <;> cases o₂ <;> decide

/-- C9 witness: an unauthenticated submission fails and its failure has
a toast, and equal insufficient-stock toasts come from the same kind. -/
theorem error_kinds_distinguishable_witness :
    (toastMessage (handleSubmit authNone stOne inFive false false).1).isSome = true
    ∧ Outcome.insufficientStock = Outcome.insufficientStock :=
  ⟨error_kinds_distinguishable.1 authNone stOne inFive false false (by decide),
   error_kinds_distinguishable.2 Outcome.insufficientStock Outcome.insufficientStock
     rfl rfl⟩

/-- C10: an outbound request whose quantity exactly equals the product's
current quantity passes the strict greater-than insufficiency check,
succeeds, and leaves the product's quantity at exactly zero. -/
theorem exact_outbound_empties_stock (auth : Auth) (st : AppState) (form : FormData)
    (uid nm : String) (sel : Product)
    (hu : auth.user = some uid) (hp : auth.profile = some nm)
    (hf : st.products.find? (fun p => p.id == form.product_id) = some sel)
    (hty : form.type = MovementType.saida) (hq : form.quantity = sel.quantity) :
    (handleSubmit auth st form false false).1 = Outcome.success
    ∧ quantityOf form.product_id (handleSubmit auth st form false false).2 = 0 := by
  have hok : ¬(form.type = MovementType.saida ∧ form.quantity > sel.quantity) := by
    intro hc
    rw [hq] at hc
    exact lt_irrefl _ hc.2
  have hne : ¬ form.type = MovementType.entrada := by
    rw [hty]
    intro hc
    exact MovementType.noConfusion hc
  rw [handleSubmit_eq_success auth st form uid nm sel hu hp hf hok]
  refine ⟨rfl, ?_⟩
  unfold quantityOf
  dsimp only
  rw [quantityOfList_update _ _ _ _ hf, if_neg hne]
  omega

/-- C10 witness: outbound 10 from balance 10 succeeds and empties the
stock. -/
theorem exact_outbound_empties_stock_witness :
    (handleSubmit authOk stOne outTen false false).1 = Outcome.success
    ∧ quantityOf outTen.product_id (handleSubmit authOk stOne outTen false false).2 = 0 :=
  exact_outbound_empties_stock authOk stOne outTen "u1" "Ana" prodM rfl rfl
    (by decide) rfl (by decide)

end Saep
